import Mathlib

/-!
Verification of the sales-analytics aggregation job
(`src/data_processing/sales_analytics.py`).

The input table is a list of order rows; numeric amount columns are
modelled by exact rationals.  Each Spark `groupBy(...).agg(...)` is
embedded as: collect the distinct group keys (in order of appearance in
the table), build one aggregate row per key from the rows matching that
key, then sort by the report's `orderBy` comparator.  `repartition` is
embedded as hashing each row's order date into one of 8 buckets.
Persistence, the summary printer and the orchestration are embedded as
pure functions over an explicit clock, filesystem and event trace.
-/

/-- One row of the raw order table (the 24 columns produced by the data
generator and read by `read_sales_data`). -/
structure OrderRow where
  order_id : String
  order_date : String
  customer_id : String
  customer_name : String
  customer_email : String
  customer_region : String
  customer_city : String
  product_id : String
  product_name : String
  product_category : String
  product_subcategory : String
  quantity : Nat
  unit_price : Rat
  total_price : Rat
  discount_percentage : Rat
  discount_amount : Rat
  final_price : Rat
  cost_price : Rat
  total_cost : Rat
  profit : Rat
  payment_method : String
  shipping_method : String
  shipping_cost : Rat
  order_status : String
deriving DecidableEq

/-- `F.sum(col)` over a set of rows. -/
def sumOf (f : OrderRow → Rat) (rows : List OrderRow) : Rat :=
  (rows.map f).sum

/-- `F.countDistinct(col)` over a set of rows. -/
def countDistinct (f : OrderRow → String) (rows : List OrderRow) : Nat :=
  ((rows.map f).dedup).length

/-- `F.avg(col)` over a set of rows. -/
def avgOf (f : OrderRow → Rat) (rows : List OrderRow) : Rat :=
  sumOf f rows / (rows.length : Rat)

/-- The distinct group keys of a `groupBy`, as produced by the engine. -/
def groupKeys {κ : Type} [DecidableEq κ] (key : OrderRow → κ) (df : List OrderRow) : List κ :=
  (df.map key).dedup

/-- The rows of the table falling into the group of key `c`. -/
def groupRows {κ : Type} [DecidableEq κ] (key : OrderRow → κ) (c : κ) (df : List OrderRow) :
    List OrderRow :=
  df.filter (fun r => decide (key r = c))

/-- Model of the engine's hash of an `Order_Date` value, used by
`df.repartition(8, "Order_Date")` to pick a partition. -/
def dateHash (s : String) : Nat :=
  s.foldl (fun a c => a * 131 + c.toNat) 7

/-- Partition number assigned to a row by `repartition(8, "Order_Date")`. -/
def partitionIndex (r : OrderRow) : Nat :=
  dateHash r.order_date % 8

/-- `df.repartition(8, "Order_Date")`: redistribute the rows into 8
partitions keyed by the hash of `Order_Date`. -/
def repartition (df : List OrderRow) : List (List OrderRow) :=
  (List.range 8).map (fun i => df.filter (fun r => decide (partitionIndex r = i)))

/-- Insert an element into a list ordered by the comparator `le`. -/
def insertBy {α : Type} (le : α → α → Bool) (a : α) : List α → List α
  | [] => [a]
  | b :: bs => if le a b then a :: b :: bs else b :: insertBy le a bs

/-- `orderBy`: sort a list of aggregate rows by the comparator `le`. -/
def sortBy {α : Type} (le : α → α → Bool) : List α → List α
  | [] => []
  | a :: as => insertBy le a (sortBy le as)

/-- Output row of the `daily_sales` report. -/
structure DailySalesRow where
  order_date : String
  daily_sales : Rat
  daily_profit : Rat
  daily_orders : Nat
  daily_customers : Nat
  avg_discount : Rat
deriving DecidableEq

/-- Output row of the `category_performance` report. -/
structure CategoryPerformanceRow where
  product_category : String
  category_sales : Rat
  category_profit : Rat
  orders_count : Nat
  avg_discount : Rat
deriving DecidableEq

/-- Output row of the `regional_analysis` report. -/
structure RegionalAnalysisRow where
  customer_region : String
  regional_sales : Rat
  customer_count : Nat
  avg_order_value : Rat
deriving DecidableEq

/-- Output row of the `payment_analysis` report. -/
structure PaymentAnalysisRow where
  payment_method : String
  transaction_count : Nat
  total_amount : Rat
  avg_transaction_amount : Rat
deriving DecidableEq

/-- Output row of the `top_products` report. -/
structure TopProductsRow where
  product_id : String
  product_name : String
  total_sales : Rat
  total_profit : Rat
  order_count : Nat
  avg_discount : Rat
deriving DecidableEq

/-- Output row of the `status_analysis` report. -/
structure StatusAnalysisRow where
  order_status : String
  order_count : Nat
  total_amount : Rat
  avg_order_amount : Rat
deriving DecidableEq

/-- Output row of the `shipping_analysis` report. -/
structure ShippingAnalysisRow where
  shipping_method : String
  shipment_count : Nat
  avg_shipping_cost : Rat
  total_sales : Rat
deriving DecidableEq

/-- Aggregate row of `daily_sales` for one `Order_Date` group. -/
def dailySalesRow (df : List OrderRow) (d : String) : DailySalesRow :=
  let g := groupRows (fun r => r.order_date) d df
  { order_date := d
    daily_sales := sumOf (fun r => r.final_price) g
    daily_profit := sumOf (fun r => r.profit) g
    daily_orders := countDistinct (fun r => r.order_id) g
    daily_customers := countDistinct (fun r => r.customer_id) g
    avg_discount := avgOf (fun r => r.discount_percentage) g }

/-- `daily_sales`: group by `Order_Date`, aggregate, `orderBy("Order_Date")`. -/
def daily_sales (df : List OrderRow) : List DailySalesRow :=
  sortBy (fun a b => decide (a.order_date ≤ b.order_date))
    ((groupKeys (fun r => r.order_date) df).map (dailySalesRow df))

/-- Aggregate row of `category_performance` for one `Product_Category` group. -/
def categoryPerformanceRow (df : List OrderRow) (c : String) : CategoryPerformanceRow :=
  let g := groupRows (fun r => r.product_category) c df
  { product_category := c
    category_sales := sumOf (fun r => r.final_price) g
    category_profit := sumOf (fun r => r.profit) g
    orders_count := g.length
    avg_discount := avgOf (fun r => r.discount_percentage) g }

/-- `category_performance`: group by `Product_Category`, aggregate, order by
`category_sales` descending. -/
def category_performance (df : List OrderRow) : List CategoryPerformanceRow :=
  sortBy (fun a b => decide (b.category_sales ≤ a.category_sales))
    ((groupKeys (fun r => r.product_category) df).map (categoryPerformanceRow df))

/-- Aggregate row of `regional_analysis` for one `Customer_Region` group. -/
def regionalAnalysisRow (df : List OrderRow) (c : String) : RegionalAnalysisRow :=
  let g := groupRows (fun r => r.customer_region) c df
  { customer_region := c
    regional_sales := sumOf (fun r => r.final_price) g
    customer_count := countDistinct (fun r => r.customer_id) g
    avg_order_value := avgOf (fun r => r.final_price) g }

/-- `regional_analysis`: group by `Customer_Region`, aggregate, order by
`regional_sales` descending. -/
def regional_analysis (df : List OrderRow) : List RegionalAnalysisRow :=
  sortBy (fun a b => decide (b.regional_sales ≤ a.regional_sales))
    ((groupKeys (fun r => r.customer_region) df).map (regionalAnalysisRow df))

/-- Aggregate row of `payment_analysis` for one `Payment_Method` group. -/
def paymentAnalysisRow (df : List OrderRow) (c : String) : PaymentAnalysisRow :=
  let g := groupRows (fun r => r.payment_method) c df
  { payment_method := c
    transaction_count := g.length
    total_amount := sumOf (fun r => r.final_price) g
    avg_transaction_amount := avgOf (fun r => r.final_price) g }

/-- `payment_analysis`: group by `Payment_Method`, aggregate, order by
`total_amount` descending. -/
def payment_analysis (df : List OrderRow) : List PaymentAnalysisRow :=
  sortBy (fun a b => decide (b.total_amount ≤ a.total_amount))
    ((groupKeys (fun r => r.payment_method) df).map (paymentAnalysisRow df))

/-- Aggregate row of `top_products` for one `(Product_ID, Product_Name)` group. -/
def topProductsRow (df : List OrderRow) (c : String × String) : TopProductsRow :=
  let g := groupRows (fun r => (r.product_id, r.product_name)) c df
  { product_id := c.1
    product_name := c.2
    total_sales := sumOf (fun r => r.final_price) g
    total_profit := sumOf (fun r => r.profit) g
    order_count := g.length
    avg_discount := avgOf (fun r => r.discount_percentage) g }

/-- The `top_products` aggregation after its `orderBy` but before `limit(100)`. -/
def topProductsFull (df : List OrderRow) : List TopProductsRow :=
  sortBy (fun a b => decide (b.total_sales ≤ a.total_sales))
    ((groupKeys (fun r => (r.product_id, r.product_name)) df).map (topProductsRow df))

/-- `top_products`: group by `Product_ID, Product_Name`, aggregate, order by
`total_sales` descending, `limit(100)`. -/
def top_products (df : List OrderRow) : List TopProductsRow :=
  (topProductsFull df).take 100

/-- Aggregate row of `status_analysis` for one `Order_Status` group. -/
def statusAnalysisRow (df : List OrderRow) (c : String) : StatusAnalysisRow :=
  let g := groupRows (fun r => r.order_status) c df
  { order_status := c
    order_count := g.length
    total_amount := sumOf (fun r => r.final_price) g
    avg_order_amount := avgOf (fun r => r.final_price) g }

/-- `status_analysis`: group by `Order_Status`, aggregate, order by
`order_count` descending. -/
def status_analysis (df : List OrderRow) : List StatusAnalysisRow :=
  sortBy (fun a b => decide (b.order_count ≤ a.order_count))
    ((groupKeys (fun r => r.order_status) df).map (statusAnalysisRow df))

/-- Aggregate row of `shipping_analysis` for one `Shipping_Method` group. -/
def shippingAnalysisRow (df : List OrderRow) (c : String) : ShippingAnalysisRow :=
  let g := groupRows (fun r => r.shipping_method) c df
  { shipping_method := c
    shipment_count := g.length
    avg_shipping_cost := avgOf (fun r => r.shipping_cost) g
    total_sales := sumOf (fun r => r.final_price) g }

/-- `shipping_analysis`: group by `Shipping_Method`, aggregate, order by
`shipment_count` descending. -/
def shipping_analysis (df : List OrderRow) : List ShippingAnalysisRow :=
  sortBy (fun a b => decide (b.shipment_count ≤ a.shipment_count))
    ((groupKeys (fun r => r.shipping_method) df).map (shippingAnalysisRow df))

/-- The mapping returned by `process_sales_metrics`: seven named reports. -/
structure Reports where
  daily_sales : List DailySalesRow
  category_performance : List CategoryPerformanceRow
  regional_analysis : List RegionalAnalysisRow
  payment_analysis : List PaymentAnalysisRow
  top_products : List TopProductsRow
  status_analysis : List StatusAnalysisRow
  shipping_analysis : List ShippingAnalysisRow
deriving DecidableEq

/-- `process_sales_metrics`: repartition by `Order_Date` into 8 partitions,
then compute the seven grouped reports over the (repartitioned) table. -/
def process_sales_metrics (df0 : List OrderRow) : Reports :=
  let df := (repartition df0).flatten
  { daily_sales := daily_sales df
    category_performance := category_performance df
    regional_analysis := regional_analysis df
    payment_analysis := payment_analysis df
    top_products := top_products df
    status_analysis := status_analysis df
    shipping_analysis := shipping_analysis df }

/-- A report table of any of the seven shapes (the value type of the
dictionary returned by `process_sales_metrics`). -/
inductive ReportTable where
  | dailyT : List DailySalesRow → ReportTable
  | categoryT : List CategoryPerformanceRow → ReportTable
  | regionalT : List RegionalAnalysisRow → ReportTable
  | paymentT : List PaymentAnalysisRow → ReportTable
  | topT : List TopProductsRow → ReportTable
  | statusT : List StatusAnalysisRow → ReportTable
  | shippingT : List ShippingAnalysisRow → ReportTable
deriving DecidableEq

/-- The name-to-table dictionary literal returned by `process_sales_metrics`,
in source order. -/
def reportEntries (r : Reports) : List (String × ReportTable) :=
  [("daily_sales", ReportTable.dailyT r.daily_sales),
   ("category_performance", ReportTable.categoryT r.category_performance),
   ("regional_analysis", ReportTable.regionalT r.regional_analysis),
   ("payment_analysis", ReportTable.paymentT r.payment_analysis),
   ("top_products", ReportTable.topT r.top_products),
   ("status_analysis", ReportTable.statusT r.status_analysis),
   ("shipping_analysis", ReportTable.shippingT r.shipping_analysis)]

/-- A SQL `SUM` over a whole table: `NULL` (`none`) on an empty table. -/
def sumOpt (f : OrderRow → Rat) (rows : List OrderRow) : Option Rat :=
  if rows.isEmpty then none else some (sumOf f rows)

/-- A SQL `AVG` over a whole table: `NULL` (`none`) on an empty table. -/
def avgOpt (f : OrderRow → Rat) (rows : List OrderRow) : Option Rat :=
  if rows.isEmpty then none else some (avgOf f rows)

/-- The single row produced by the whole-table `agg` inside
`generate_summary_metrics` (`collect()[0]`). -/
structure SummaryRow where
  total_sales : Option Rat
  total_profit : Option Rat
  total_orders : Nat
  unique_customers : Nat
  avg_discount : Option Rat
  avg_order_value : Option Rat
deriving DecidableEq

/-- The whole-table aggregation of `generate_summary_metrics`. -/
def summaryRow (df : List OrderRow) : SummaryRow :=
  { total_sales := sumOpt (fun r => r.final_price) df
    total_profit := sumOpt (fun r => r.profit) df
    total_orders := countDistinct (fun r => r.order_id) df
    unique_customers := countDistinct (fun r => r.customer_id) df
    avg_discount := avgOpt (fun r => r.discount_percentage) df
    avg_order_value := avgOpt (fun r => r.final_price) df }

/-- Applying the numeric format `:,.2f` to a nullable aggregate: formatting
`None` raises a `TypeError`. -/
def fmtReq : Option Rat → Except String Rat
  | none => Except.error "TypeError: unsupported format string passed to NoneType.__format__"
  | some q => Except.ok q

/-- `generate_summary_metrics`: aggregate the whole table into one row and
format the six metrics; the nullable ones go through `fmtReq` in print
order and the first `NULL` raises. -/
def generate_summary_metrics (df : List OrderRow) :
    Except String (Rat × Rat × Nat × Nat × Rat × Rat) := do
  let s := summaryRow df
  let ts ← fmtReq s.total_sales
  let tp ← fmtReq s.total_profit
  let ad ← fmtReq s.avg_discount
  let av ← fmtReq s.avg_order_value
  pure (ts, tp, s.total_orders, s.unique_customers, ad, av)

/-- Observable actions of `save_reports`, in execution order. -/
inductive Event where
  | writeCsv : String → Event
  | writeParquet : String → Event
  | print : String → Event
deriving DecidableEq

/-- The CSV output path of a report: `<curated>/<report_name>_<timestamp>`. -/
def csvPath (curated n t : String) : String :=
  curated ++ "/" ++ n ++ "_" ++ t

/-- The body of the `for report_name, df in reports.items()` loop of
`save_reports`, with the timestamp already fixed: write CSV, write
Parquet (same path with `.parquet` appended), print the confirmation. -/
def saveLoop (curated t : String) : List (String × ReportTable) → List Event
  | [] => []
  | (n, _) :: rest =>
    Event.writeCsv (csvPath curated n t) ::
    Event.writeParquet (csvPath curated n t ++ ".parquet") ::
    Event.print ("Saved " ++ n ++ " report to " ++ csvPath curated n t) ::
    saveLoop curated t rest

/-- `save_reports`: read the clock once (`datetime.now().strftime(...)`,
the head of the clock stream), then loop over the reports. -/
def save_reports (curated : String) (clock : List String) (reports : List (String × ReportTable)) :
    List Event :=
  saveLoop curated (clock.headD "") reports

/-- `read_sales_data`: load the CSV at the configured raw path, raising
an `IOError`-style analysis exception when the path does not exist. -/
def read_sales_data (pathExists : Bool) (raw : List OrderRow) : Except String (List OrderRow) :=
  if pathExists then Except.ok raw else Except.error "IOError: Path does not exist"

/-- The `try` block of `run_analytics`: read, process, save, summarize;
any stage's failure aborts the rest. -/
def runBody (pathExists : Bool) (raw : List OrderRow) (curated : String) (clock : List String) :
    Except String (List Event) := do
  let df ← read_sales_data pathExists raw
  let reports := process_sales_metrics df
  let ev := save_reports curated clock (reportEntries reports)
  let _ ← generate_summary_metrics df
  pure ev

/-- A `finally` block that stops the Spark session: the body's outcome is
returned unchanged (errors re-raised, not swallowed) and the stop counter
is incremented exactly once. -/
def tryFinallyStop {α : Type} (body : Except String α) (stops : Nat) : Except String α × Nat :=
  (body, stops + 1)

/-- `run_analytics`: the whole pipeline inside `try ... except ... finally
self.spark.stop()`, tracking how many times the session is stopped. -/
def run_analytics (pathExists : Bool) (raw : List OrderRow) (curated : String)
    (clock : List String) (stops : Nat) : Except String (List Event) × Nat :=
  tryFinallyStop (runBody pathExists raw curated clock) stops

/-- All output paths of one run of `save_reports` (two per report). -/
def runPaths (curated t : String) (names : List String) : List String :=
  names.flatMap (fun n => [csvPath curated n t, csvPath curated n t ++ ".parquet"])

/-- A filesystem: newest write first, lookup returns the newest content. -/
abbrev FileSys : Type := List (String × Nat)

/-- Write (or overwrite) one output path. -/
def writeOut (fs : FileSys) (p : String) (v : Nat) : FileSys :=
  (p, v) :: fs

/-- The filesystem effect of one run of `save_reports`: write every output
path with this run's content. -/
def runWrite (curated t : String) (names : List String) (v : Nat) (fs : FileSys) : FileSys :=
  (runPaths curated t names).foldl (fun acc p => writeOut acc p v) fs

/-- A well-formed run timestamp: `YYYYMMDD_HHMMSS` — 15 characters, each a
digit or an underscore. -/
def wellFormedTs (t : String) : Prop :=
  t.length = 15 ∧ ∀ ch ∈ t.data, ch.isDigit = true ∨ ch = '_'

/-- Does a trace event write an output artifact (CSV or Parquet)? -/
def isArtifactWrite : Event → Bool
  | Event.writeCsv _ => true
  | Event.writeParquet _ => true
  | Event.print _ => false

/-- Test fixture: an order row with the given key columns and amounts; the
columns not consumed by any aggregation take fixed filler values. -/
def mkRow (oid odate cid reg pid pname cat pay ship status : String)
    (fp pr disc shc : Rat) : OrderRow :=
  { order_id := oid, order_date := odate, customer_id := cid,
    customer_name := "cn", customer_email := "ce", customer_region := reg,
    customer_city := "cc", product_id := pid, product_name := pname,
    product_category := cat, product_subcategory := "sub", quantity := 1,
    unit_price := fp, total_price := fp, discount_percentage := disc,
    discount_amount := 0, final_price := fp, cost_price := 0, total_cost := 0,
    profit := pr, payment_method := pay, shipping_method := ship,
    shipping_cost := shc, order_status := status }

/-- Test fixture for the spec's aggregate-correctness example: three orders
in category `Electronics` with `final_price` 10, 20, 30 and `profit` 1, 2, 3. -/
def exElectronics : List OrderRow :=
  [mkRow "o1" "2024-01-01" "c1" "NA" "p1" "P1" "Electronics" "Card" "Std" "Done" 10 1 0 5,
   mkRow "o2" "2024-01-01" "c2" "NA" "p2" "P2" "Electronics" "Card" "Std" "Done" 20 2 0 5,
   mkRow "o3" "2024-01-01" "c3" "NA" "p3" "P3" "Electronics" "Card" "Std" "Done" 30 3 0 5]

/-- Test fixture for the distinct-count example: one customer placing five
orders (five distinct order ids) on one date. -/
def exFiveOrders : List OrderRow :=
  [mkRow "o1" "2024-02-02" "c1" "NA" "p1" "P1" "Electronics" "Card" "Std" "Done" 10 1 0 5,
   mkRow "o2" "2024-02-02" "c1" "NA" "p2" "P2" "Electronics" "Card" "Std" "Done" 20 2 0 5,
   mkRow "o3" "2024-02-02" "c1" "NA" "p3" "P3" "Electronics" "Card" "Std" "Done" 30 3 0 5,
   mkRow "o4" "2024-02-02" "c1" "NA" "p4" "P4" "Electronics" "Card" "Std" "Done" 40 4 0 5,
   mkRow "o5" "2024-02-02" "c1" "NA" "p5" "P5" "Electronics" "Card" "Std" "Done" 50 5 0 5]

/-- Two rows on one date in distinct order statuses, each status with one
order: a tie for every descending report sort (equal sums and counts),
listed in one input order. -/
def exTieA : List OrderRow :=
  [mkRow "o1" "2024-03-03" "c1" "NA" "p1" "P1" "A" "Card" "Std" "Pending" 10 1 0 5,
   mkRow "o2" "2024-03-03" "c2" "NA" "p2" "P2" "B" "Card" "Std" "Shipped" 10 2 0 5]

/-- The same two rows in the opposite input order (a different distribution
of the same multiset of rows across the engine's workers). -/
def exTieB : List OrderRow :=
  [mkRow "o2" "2024-03-03" "c2" "NA" "p2" "P2" "B" "Card" "Std" "Shipped" 10 2 0 5,
   mkRow "o1" "2024-03-03" "c1" "NA" "p1" "P1" "A" "Card" "Std" "Pending" 10 1 0 5]

/-! ### Sorting lemmas -/

theorem insertBy_perm {α : Type} (le : α → α → Bool) (a : α) (l : List α) :
    (insertBy le a l).Perm (a :: l) := by
  induction l with
  | nil => simp [insertBy]
  | cons b bs ih =>
    by_cases h : le a b
    · simp [insertBy, h]
    · simp only [insertBy, if_neg h]
      exact (ih.cons b).trans (List.Perm.swap a b bs)

theorem sortBy_perm {α : Type} (le : α → α → Bool) (l : List α) : (sortBy le l).Perm l := by
  induction l with
  | nil => simp [sortBy]
  | cons a as ih => exact (insertBy_perm le a (sortBy le as)).trans (ih.cons a)

theorem pairwise_insertBy {α : Type} {le : α → α → Bool}
    (htot : ∀ a b, le a b = true ∨ le b a = true)
    (htrans : ∀ a b c, le a b = true → le b c = true → le a c = true)
    (a : α) {l : List α} (h : l.Pairwise (fun x y => le x y = true)) :
    (insertBy le a l).Pairwise (fun x y => le x y = true) := by
  induction l with
  | nil => simp [insertBy]
  | cons b bs ih =>
    rcases List.pairwise_cons.mp h with ⟨hb, hbs⟩
    by_cases hab : le a b
    · rw [insertBy, if_pos hab]
      refine List.pairwise_cons.mpr ⟨?_, h⟩
      intro x hx
      rcases List.mem_cons.mp hx with rfl | hx
      · exact hab
      · exact htrans a b x hab (hb x hx)
    · rw [insertBy, if_neg hab]
      refine List.pairwise_cons.mpr ⟨?_, ih hbs⟩
      intro x hx
      rcases List.mem_cons.mp ((insertBy_perm le a bs).mem_iff.mp hx) with h1 | h1
      · rw [h1]
        rcases htot a b with h2 | h2
        · exact absurd h2 hab
        · exact h2
      · exact hb x h1

theorem pairwise_sortBy {α : Type} {le : α → α → Bool}
    (htot : ∀ a b, le a b = true ∨ le b a = true)
    (htrans : ∀ a b c, le a b = true → le b c = true → le a c = true)
    (l : List α) :
    (sortBy le l).Pairwise (fun x y => le x y = true) := by
  induction l with
  | nil => simp [sortBy]
  | cons a as ih => exact pairwise_insertBy htot htrans a ih

/-! ### Permutation invariance of the aggregation primitives -/

theorem sumOf_perm (f : OrderRow → Rat) {l1 l2 : List OrderRow} (h : l1.Perm l2) :
    sumOf f l1 = sumOf f l2 :=
  (h.map f).sum_eq

theorem countDistinct_perm (f : OrderRow → String) {l1 l2 : List OrderRow} (h : l1.Perm l2) :
    countDistinct f l1 = countDistinct f l2 :=
  ((h.map f).dedup).length_eq

theorem avgOf_perm (f : OrderRow → Rat) {l1 l2 : List OrderRow} (h : l1.Perm l2) :
    avgOf f l1 = avgOf f l2 := by
  rw [avgOf, avgOf, sumOf_perm f h, h.length_eq]

theorem groupRows_perm {κ : Type} [DecidableEq κ] (key : OrderRow → κ) (c : κ)
    {df1 df2 : List OrderRow} (h : df1.Perm df2) :
    (groupRows key c df1).Perm (groupRows key c df2) :=
  h.filter _

theorem groupKeys_perm {κ : Type} [DecidableEq κ] (key : OrderRow → κ)
    {df1 df2 : List OrderRow} (h : df1.Perm df2) :
    (groupKeys key df1).Perm (groupKeys key df2) :=
  (h.map key).dedup

/-! ### `repartition` preserves the multiset of rows -/

theorem count_filter_eq {α : Type} [DecidableEq α] (p : α → Bool) (a : α) (l : List α) :
    List.count a (l.filter p) = if p a = true then List.count a l else 0 := by
  by_cases h : p a = true
  · rw [if_pos h, List.count_filter h]
  · rw [if_neg h]
    exact List.count_eq_zero.mpr (fun hmem => h ((List.mem_filter.mp hmem).2))

theorem repartition_flatten_perm (df : List OrderRow) : ((repartition df).flatten).Perm df := by
  rw [List.perm_iff_count]
  intro a
  rw [List.count_flatten, repartition]
  have hrange : List.range 8 = [0, 1, 2, 3, 4, 5, 6, 7] := rfl
  rw [hrange]
  simp only [List.map_cons, List.map_nil, List.sum_cons, List.sum_nil, count_filter_eq,
    decide_eq_true_eq]
  have h8 : partitionIndex a < 8 := Nat.mod_lt _ (by norm_num)
  set k := partitionIndex a with hk
  interval_cases k <;> simp

/-! ### The aggregate rows depend only on the multiset of input rows -/

theorem dailySalesRow_congr {df1 df2 : List OrderRow} (h : df1.Perm df2) (d : String) :
    dailySalesRow df1 d = dailySalesRow df2 d := by
  have hg : (groupRows (fun r => r.order_date) d df1).Perm
      (groupRows (fun r => r.order_date) d df2) := groupRows_perm _ _ h
  simp only [dailySalesRow, sumOf_perm _ hg, countDistinct_perm _ hg, avgOf_perm _ hg]

theorem categoryPerformanceRow_congr {df1 df2 : List OrderRow} (h : df1.Perm df2) (c : String) :
    categoryPerformanceRow df1 c = categoryPerformanceRow df2 c := by
  have hg : (groupRows (fun r => r.product_category) c df1).Perm
      (groupRows (fun r => r.product_category) c df2) := groupRows_perm _ _ h
  simp only [categoryPerformanceRow, sumOf_perm _ hg, avgOf_perm _ hg, hg.length_eq]

theorem regionalAnalysisRow_congr {df1 df2 : List OrderRow} (h : df1.Perm df2) (c : String) :
    regionalAnalysisRow df1 c = regionalAnalysisRow df2 c := by
  have hg : (groupRows (fun r => r.customer_region) c df1).Perm
      (groupRows (fun r => r.customer_region) c df2) := groupRows_perm _ _ h
  simp only [regionalAnalysisRow, sumOf_perm _ hg, countDistinct_perm _ hg, avgOf_perm _ hg]

theorem paymentAnalysisRow_congr {df1 df2 : List OrderRow} (h : df1.Perm df2) (c : String) :
    paymentAnalysisRow df1 c = paymentAnalysisRow df2 c := by
  have hg : (groupRows (fun r => r.payment_method) c df1).Perm
      (groupRows (fun r => r.payment_method) c df2) := groupRows_perm _ _ h
  simp only [paymentAnalysisRow, sumOf_perm _ hg, avgOf_perm _ hg, hg.length_eq]

theorem topProductsRow_congr {df1 df2 : List OrderRow} (h : df1.Perm df2) (c : String × String) :
    topProductsRow df1 c = topProductsRow df2 c := by
  have hg : (groupRows (fun r => (r.product_id, r.product_name)) c df1).Perm
      (groupRows (fun r => (r.product_id, r.product_name)) c df2) := groupRows_perm _ _ h
  simp only [topProductsRow, sumOf_perm _ hg, avgOf_perm _ hg, hg.length_eq]

theorem statusAnalysisRow_congr {df1 df2 : List OrderRow} (h : df1.Perm df2) (c : String) :
    statusAnalysisRow df1 c = statusAnalysisRow df2 c := by
  have hg : (groupRows (fun r => r.order_status) c df1).Perm
      (groupRows (fun r => r.order_status) c df2) := groupRows_perm _ _ h
  simp only [statusAnalysisRow, sumOf_perm _ hg, avgOf_perm _ hg, hg.length_eq]

theorem shippingAnalysisRow_congr {df1 df2 : List OrderRow} (h : df1.Perm df2) (c : String) :
    shippingAnalysisRow df1 c = shippingAnalysisRow df2 c := by
  have hg : (groupRows (fun r => r.shipping_method) c df1).Perm
      (groupRows (fun r => r.shipping_method) c df2) := groupRows_perm _ _ h
  simp only [shippingAnalysisRow, sumOf_perm _ hg, avgOf_perm _ hg, hg.length_eq]

/-! ### A whole report is permutation-invariant up to row order -/

theorem report_perm {κ β : Type} [DecidableEq κ] (key : OrderRow → κ) (mk1 mk2 : κ → β)
    (le : β → β → Bool) {df1 df2 : List OrderRow} (h : df1.Perm df2)
    (hmk : ∀ c, mk1 c = mk2 c) :
    (sortBy le ((groupKeys key df1).map mk1)).Perm (sortBy le ((groupKeys key df2).map mk2)) := by
  have h1 : ((groupKeys key df1).map mk1).Perm ((groupKeys key df2).map mk2) := by
    rw [List.map_congr_left (fun c _ => hmk c)]
    exact (groupKeys_perm key h).map mk2
  exact (sortBy_perm le _).trans (h1.trans (sortBy_perm le _).symm)

theorem daily_sales_perm {df1 df2 : List OrderRow} (h : df1.Perm df2) :
    (daily_sales df1).Perm (daily_sales df2) :=
  report_perm _ _ _ _ h (dailySalesRow_congr h)

theorem category_performance_perm {df1 df2 : List OrderRow} (h : df1.Perm df2) :
    (category_performance df1).Perm (category_performance df2) :=
  report_perm _ _ _ _ h (categoryPerformanceRow_congr h)

theorem regional_analysis_perm {df1 df2 : List OrderRow} (h : df1.Perm df2) :
    (regional_analysis df1).Perm (regional_analysis df2) :=
  report_perm _ _ _ _ h (regionalAnalysisRow_congr h)

theorem payment_analysis_perm {df1 df2 : List OrderRow} (h : df1.Perm df2) :
    (payment_analysis df1).Perm (payment_analysis df2) :=
  report_perm _ _ _ _ h (paymentAnalysisRow_congr h)

theorem topProductsFull_perm {df1 df2 : List OrderRow} (h : df1.Perm df2) :
    (topProductsFull df1).Perm (topProductsFull df2) :=
  report_perm _ _ _ _ h (topProductsRow_congr h)

theorem status_analysis_perm {df1 df2 : List OrderRow} (h : df1.Perm df2) :
    (status_analysis df1).Perm (status_analysis df2) :=
  report_perm _ _ _ _ h (statusAnalysisRow_congr h)

theorem shipping_analysis_perm {df1 df2 : List OrderRow} (h : df1.Perm df2) :
    (shipping_analysis df1).Perm (shipping_analysis df2) :=
  report_perm _ _ _ _ h (shippingAnalysisRow_congr h)

theorem summaryRow_perm {df1 df2 : List OrderRow} (h : df1.Perm df2) :
    summaryRow df1 = summaryRow df2 := by
  have hemp : df1.isEmpty = df2.isEmpty := by
    have hlen := h.length_eq
    cases df1 <;> cases df2 <;> simp_all
  simp only [summaryRow, sumOpt, avgOpt, hemp, sumOf_perm _ h, countDistinct_perm _ h,
    avgOf_perm _ h]

/-! ### Summing group sums over the distinct keys recovers the total -/

theorem sum_map_ite_eq {κ : Type} [DecidableEq κ] (v : Rat) (x : κ) :
    ∀ (ks : List κ), ks.Nodup → x ∈ ks →
      (ks.map (fun c => if x = c then v else 0)).sum = v := by
  intro ks
  induction ks with
  | nil => intro _ hx; simp at hx
  | cons k ks ih =>
    intro hnd hx
    rcases List.nodup_cons.mp hnd with ⟨hk, hnd'⟩
    rcases List.mem_cons.mp hx with h1 | h1
    · simp only [List.map_cons, List.sum_cons, if_pos h1]
      have h0 : (ks.map (fun c => if x = c then v else 0)).sum = 0 := by
        apply List.sum_eq_zero
        intro y hy
        rcases List.mem_map.mp hy with ⟨c, hc, rfl⟩
        have hne : ¬x = c := by
          intro he
          apply hk
          rw [← h1, he]
          exact hc
        simp [hne]
      rw [h0, add_zero]
    · have hne : ¬x = k := fun he => hk (he ▸ h1)
      simp only [List.map_cons, List.sum_cons, if_neg hne, zero_add]
      exact ih hnd' h1

theorem sum_groupKeys_filter {κ : Type} [DecidableEq κ] (key : OrderRow → κ) (f : OrderRow → Rat) :
    ∀ (l : List OrderRow) (ks : List κ), ks.Nodup → (∀ a ∈ l, key a ∈ ks) →
      (ks.map (fun c => sumOf f (groupRows key c l))).sum = sumOf f l := by
  intro l
  induction l with
  | nil =>
    intro ks _ _
    have h0 : ∀ y ∈ ks.map (fun c => sumOf f (groupRows key c [])), y = 0 := by
      intro y hy
      rcases List.mem_map.mp hy with ⟨c, _, rfl⟩
      simp [sumOf, groupRows]
    rw [List.sum_eq_zero h0]
    simp [sumOf]
  | cons a t ih =>
    intro ks hnd hmem
    have hka : key a ∈ ks := hmem a (List.mem_cons_self a t)
    have hsplit : ∀ c, sumOf f (groupRows key c (a :: t)) =
        (if key a = c then f a else 0) + sumOf f (groupRows key c t) := by
      intro c
      by_cases hc : key a = c
      · simp [groupRows, sumOf, List.filter_cons, hc]
      · simp [groupRows, sumOf, List.filter_cons, hc]
    calc (ks.map (fun c => sumOf f (groupRows key c (a :: t)))).sum
        = (ks.map (fun c =>
            (if key a = c then f a else 0) + sumOf f (groupRows key c t))).sum := by
          rw [List.map_congr_left (fun c _ => hsplit c)]
      _ = (ks.map (fun c => if key a = c then f a else 0)).sum +
            (ks.map (fun c => sumOf f (groupRows key c t))).sum := List.sum_map_add
      _ = f a + sumOf f t := by
          rw [sum_map_ite_eq (f a) (key a) ks hnd hka,
            ih ks hnd (fun b hb => hmem b (List.mem_cons_of_mem a hb))]
      _ = sumOf f (a :: t) := by simp [sumOf]

/-! ### The persistence trace -/

theorem saveLoop_eq_flatMap (curated t : String) (reports : List (String × ReportTable)) :
    saveLoop curated t reports = reports.flatMap (fun p =>
      [Event.writeCsv (csvPath curated p.1 t),
       Event.writeParquet (csvPath curated p.1 t ++ ".parquet"),
       Event.print ("Saved " ++ p.1 ++ " report to " ++ csvPath curated p.1 t)]) := by
  induction reports with
  | nil => rfl
  | cons r rest ih =>
    cases r
    simp [saveLoop, ih]

/-! ### Filesystem lemmas -/

theorem lookup_writeOut_ne (fs : FileSys) (p q : String) (v : Nat) (h : p ≠ q) :
    (writeOut fs q v).lookup p = fs.lookup p := by
  have hb : (p == q) = false := beq_eq_false_iff_ne.mpr h
  simp [writeOut, List.lookup, hb]

theorem lookup_foldl_write (v : Nat) (p : String) :
    ∀ (ps : List String) (fs : FileSys), p ∉ ps →
      (ps.foldl (fun acc q => writeOut acc q v) fs).lookup p = fs.lookup p := by
  intro ps
  induction ps with
  | nil => intro fs _; rfl
  | cons q qs ih =>
    intro fs hp
    rw [List.foldl_cons]
    rw [ih _ (fun hmem => hp (List.mem_cons_of_mem q hmem))]
    refine lookup_writeOut_ne fs p q v (fun he => hp ?_)
    rw [he]
    exact List.mem_cons_self q qs

/-! ### Output-path disjointness across distinct timestamps -/

theorem csvPath_data (curated n t : String) :
    (csvPath curated n t).data = (curated ++ "/" ++ n ++ "_").data ++ t.data := by
  simp [csvPath]

theorem csvPath_inj_ts {c n1 n2 t1 t2 : String} (h1 : t1.length = 15) (h2 : t2.length = 15)
    (he : csvPath c n1 t1 = csvPath c n2 t2) : t1 = t2 := by
  have hd := congrArg String.data he
  rw [csvPath_data, csvPath_data] at hd
  have hlen : t1.data.length = t2.data.length := by
    have e1 : t1.data.length = t1.length := rfl
    have e2 : t2.data.length = t2.length := rfl
    rw [e1, e2, h1, h2]
  exact String.ext (List.append_inj' hd hlen).2

theorem csv_ne_parquet {c n1 n2 t1 t2 : String} (h1 : wellFormedTs t1) :
    csvPath c n1 t1 ≠ csvPath c n2 t2 ++ ".parquet" := by
  intro he
  have hd := congrArg String.data he
  rw [String.data_append, csvPath_data, csvPath_data] at hd
  rw [← List.take_append_drop 7 t1.data, ← List.append_assoc] at hd
  have hlen : (t1.data.drop 7).length = (".parquet".data).length := by
    rw [List.length_drop]
    have e1 : t1.data.length = t1.length := rfl
    rw [e1, h1.1]
    rfl
  have hdp := (List.append_inj' hd hlen).2
  have hdot : '.' ∈ t1.data := by
    have hmem : '.' ∈ t1.data.drop 7 := by
      rw [hdp]
      decide
    exact List.Sublist.mem hmem (List.drop_sublist 7 t1.data)
  rcases h1.2 '.' hdot with hcontra | hcontra
  · exact absurd hcontra (by decide)
  · exact absurd hcontra (by decide)

theorem parquet_inj {c n1 n2 t1 t2 : String}
    (he : csvPath c n1 t1 ++ ".parquet" = csvPath c n2 t2 ++ ".parquet") :
    csvPath c n1 t1 = csvPath c n2 t2 := by
  have hd := congrArg String.data he
  rw [String.data_append, String.data_append] at hd
  exact String.ext (List.append_inj' hd rfl).1

theorem runPaths_disjoint {c t1 t2 : String} {names : List String}
    (h1 : wellFormedTs t1) (h2 : wellFormedTs t2) (hne : t1 ≠ t2) :
    ∀ p ∈ runPaths c t1 names, p ∉ runPaths c t2 names := by
  intro p hp hq
  rcases List.mem_flatMap.mp hp with ⟨n1, _, hp1⟩
  rcases List.mem_flatMap.mp hq with ⟨n2, _, hq1⟩
  simp only [List.mem_cons, List.not_mem_nil, or_false] at hp1 hq1
  rcases hp1 with hp1 | hp1 <;> rcases hq1 with hq1 | hq1
  · exact hne (csvPath_inj_ts h1.1 h2.1 (hp1.symm.trans hq1))
  · exact csv_ne_parquet h1 (hp1.symm.trans hq1)
  · exact csv_ne_parquet h2 (hq1.symm.trans hp1)
  · exact hne (csvPath_inj_ts h1.1 h2.1 (parquet_inj (hp1.symm.trans hq1)))

theorem runWrite_preserves {c t1 t2 : String} {names : List String}
    (h1 : wellFormedTs t1) (h2 : wellFormedTs t2) (hne : t1 ≠ t2)
    (v2 : Nat) (fs : FileSys) :
    ∀ p ∈ runPaths c t1 names, (runWrite c t2 names v2 fs).lookup p = fs.lookup p := by
  intro p hp
  exact lookup_foldl_write v2 p _ fs (runPaths_disjoint h1 h2 hne p hp)

/-! ### The seven fields of `process_sales_metrics` -/

theorem pm_daily (df : List OrderRow) :
    (process_sales_metrics df).daily_sales = daily_sales ((repartition df).flatten) := rfl

theorem pm_category (df : List OrderRow) :
    (process_sales_metrics df).category_performance =
      category_performance ((repartition df).flatten) := rfl

theorem pm_regional (df : List OrderRow) :
    (process_sales_metrics df).regional_analysis =
      regional_analysis ((repartition df).flatten) := rfl

theorem pm_payment (df : List OrderRow) :
    (process_sales_metrics df).payment_analysis =
      payment_analysis ((repartition df).flatten) := rfl

theorem pm_top (df : List OrderRow) :
    (process_sales_metrics df).top_products = top_products ((repartition df).flatten) := rfl

theorem pm_status (df : List OrderRow) :
    (process_sales_metrics df).status_analysis =
      status_analysis ((repartition df).flatten) := rfl

theorem pm_shipping (df : List OrderRow) :
    (process_sales_metrics df).shipping_analysis =
      shipping_analysis ((repartition df).flatten) := rfl

/-! ### Group keys -/

theorem groupKeys_nodup {κ : Type} [DecidableEq κ] (key : OrderRow → κ) (df : List OrderRow) :
    (groupKeys key df).Nodup :=
  List.nodup_dedup _

theorem key_mem_groupKeys {κ : Type} [DecidableEq κ] (key : OrderRow → κ) (df : List OrderRow) :
    ∀ a ∈ df, key a ∈ groupKeys key df :=
  fun a ha => List.mem_dedup.mpr (List.mem_map_of_mem _ ha)

/-! ### Descending sorts produce non-increasing rows -/

theorem sortBy_desc_pairwise {β : Type} (m : β → Rat) (l : List β) :
    (sortBy (fun a b => decide (m b ≤ m a)) l).Pairwise (fun a b => m b ≤ m a) := by
  have htot : ∀ a b : β, (decide (m b ≤ m a)) = true ∨ (decide (m a ≤ m b)) = true := by
    intro a b
    rcases le_total (m b) (m a) with h1 | h1
    · exact Or.inl (decide_eq_true h1)
    · exact Or.inr (decide_eq_true h1)
  have htrans : ∀ a b c : β, (decide (m b ≤ m a)) = true → (decide (m c ≤ m b)) = true →
      (decide (m c ≤ m a)) = true := by
    intro a b c h1 h2
    exact decide_eq_true ((of_decide_eq_true h2).trans (of_decide_eq_true h1))
  exact (pairwise_sortBy htot htrans l).imp (fun hab => of_decide_eq_true hab)

/-! ### Engine reports versus the direct reference computation -/

theorem report_reference {κ β : Type} [DecidableEq κ] (key : OrderRow → κ)
    (mk : List OrderRow → κ → β) (le : β → β → Bool) (keyOf : β → κ)
    (hkey : ∀ d c, keyOf (mk d c) = c)
    (hcongr : ∀ (df1 df2 : List OrderRow), df1.Perm df2 → ∀ c, mk df1 c = mk df2 c)
    (df : List OrderRow) :
    (∀ c ∈ df.map key,
      mk df c ∈ sortBy le ((groupKeys key ((repartition df).flatten)).map
        (mk ((repartition df).flatten)))) ∧
    (∀ row ∈ sortBy le ((groupKeys key ((repartition df).flatten)).map
        (mk ((repartition df).flatten))), row = mk df (keyOf row)) := by
  have hflat := repartition_flatten_perm df
  constructor
  · intro c hc
    have hcf : c ∈ groupKeys key ((repartition df).flatten) := by
      rw [groupKeys, List.mem_dedup]
      exact ((hflat.map key).mem_iff).mpr hc
    have hmem : mk ((repartition df).flatten) c ∈
        (groupKeys key ((repartition df).flatten)).map (mk ((repartition df).flatten)) :=
      List.mem_map_of_mem _ hcf
    rw [← hcongr _ _ hflat c]
    exact ((sortBy_perm _ _).mem_iff).mpr hmem
  · intro row hrow
    have h2 := ((sortBy_perm le _).mem_iff).mp hrow
    rcases List.mem_map.mp h2 with ⟨c, hc, hrc⟩
    subst hrc
    rw [hkey]
    exact hcongr _ _ hflat c

/-! ## The claims -/

/-- **C5.** `repartition` (the `df.repartition(8, "Order_Date")` step at the
start of `process_sales_metrics`) preserves the row count and the multiset of
row contents of its input, for every input table including the empty one; it
only redistributes the rows across the 8 partitions. -/
theorem claim_C5_repartition_preserves (df : List OrderRow) :
    ((repartition df).flatten).Perm df ∧
    ((repartition df).map List.length).sum = df.length ∧
    (repartition df).length = 8 := by
  refine ⟨repartition_flatten_perm df, ?_, ?_⟩
  · rw [← List.length_flatten]
    exact (repartition_flatten_perm df).length_eq
  · simp [repartition]

/-- **C6.** When the configured source path does not exist, `run_analytics`
fails with the `IOError` raised by `read_sales_data` — the error is re-raised,
not swallowed — and on every exit path, success or failure, the Spark session
is stopped exactly once by the `finally` block. -/
theorem claim_C6_failure_propagation (pathExists : Bool) (raw : List OrderRow)
    (curated : String) (clock : List String) (stops : Nat) :
    (pathExists = false →
      (run_analytics pathExists raw curated clock stops).1 =
        Except.error "IOError: Path does not exist") ∧
    (run_analytics pathExists raw curated clock stops).2 = stops + 1 := by
  constructor
  · intro h
    subst h
    rfl
  · rfl

/-- **C6 witness.** A concrete missing-path run: the result is the `IOError`
and the session stop count went from 0 to 1. -/
theorem claim_C6_witness :
    (run_analytics false [] "data/curated" ["20240101_000000"] 0).1 =
      Except.error "IOError: Path does not exist" ∧
    (run_analytics false [] "data/curated" ["20240101_000000"] 0).2 = 1 :=
  ⟨(claim_C6_failure_propagation false [] "data/curated" ["20240101_000000"] 0).1 rfl,
   (claim_C6_failure_propagation false [] "data/curated" ["20240101_000000"] 0).2⟩

/-- **C9.** `save_reports` reads the clock once, before iterating: every
artifact path of the run carries the single timestamp at the head of the
clock stream (the rest of the clock is irrelevant); per report the trace is
CSV write at `<curated>/<name>_<timestamp>`, then Parquet write at the same
path with `.parquet` appended, then the confirmation print — so each print
comes after both writes of its report — and a seven-report run performs
exactly fourteen artifact writes. -/
theorem claim_C9_save_reports_trace (curated t : String) (rest : List String)
    (reports : List (String × ReportTable)) :
    (save_reports curated (t :: rest) reports = reports.flatMap (fun p =>
      [Event.writeCsv (csvPath curated p.1 t),
       Event.writeParquet (csvPath curated p.1 t ++ ".parquet"),
       Event.print ("Saved " ++ p.1 ++ " report to " ++ csvPath curated p.1 t)])) ∧
    (∀ rest2 : List String,
      save_reports curated (t :: rest) reports = save_reports curated (t :: rest2) reports) ∧
    (reports.length = 7 →
      ((save_reports curated (t :: rest) reports).countP isArtifactWrite) = 14) := by
  have hcount : ∀ rs : List (String × ReportTable),
      (saveLoop curated t rs).countP isArtifactWrite = 2 * rs.length := by
    intro rs
    induction rs with
    | nil => rfl
    | cons r rest2 ih =>
      cases r
      simp [saveLoop, List.countP_cons, ih, isArtifactWrite]
      all_goals omega
  refine ⟨saveLoop_eq_flatMap curated t reports, fun rest2 => rfl, fun h7 => ?_⟩
  have : (save_reports curated (t :: rest) reports).countP isArtifactWrite =
      2 * reports.length := hcount reports
  rw [this, h7]

/-- **C9 witness.** Saving the seven reports of a run writes exactly
fourteen artifacts. -/
theorem claim_C9_witness :
    ((save_reports "data/curated" ["20240101_000000"]
      (reportEntries (process_sales_metrics []))).countP isArtifactWrite) = 14 :=
  (claim_C9_save_reports_trace "data/curated" "20240101_000000" []
    (reportEntries (process_sales_metrics []))).2.2 rfl

/-- **C10.** On the empty table the whole-table aggregation still yields one
summary row, but its sum and average fields are `NULL` (`none`) rather than 0
(while the distinct counts are 0), and formatting those `NULL`s with `:,.2f`
raises a `TypeError`, so `generate_summary_metrics` fails on the empty table;
on any non-empty table it succeeds. -/
theorem claim_C10_summary_empty_raises (df : List OrderRow) :
    (df = [] →
      (summaryRow df).total_sales = none ∧
      (summaryRow df).total_profit = none ∧
      (summaryRow df).avg_discount = none ∧
      (summaryRow df).avg_order_value = none ∧
      (summaryRow df).total_orders = 0 ∧
      (summaryRow df).unique_customers = 0 ∧
      generate_summary_metrics df =
        Except.error "TypeError: unsupported format string passed to NoneType.__format__") ∧
    (df ≠ [] → (generate_summary_metrics df).isOk = true) := by
  constructor
  · intro h
    subst h
    exact ⟨rfl, rfl, rfl, rfl, rfl, rfl, rfl⟩
  · intro h
    cases df with
    | nil => exact absurd rfl h
    | cons a t => rfl

/-- **C10 witness.** The empty table raises the `TypeError`; the three-row
fixture succeeds. -/
theorem claim_C10_witness :
    generate_summary_metrics [] =
      Except.error "TypeError: unsupported format string passed to NoneType.__format__" ∧
    (generate_summary_metrics exElectronics).isOk = true :=
  ⟨((claim_C10_summary_empty_raises []).1 rfl).2.2.2.2.2.2,
   (claim_C10_summary_empty_raises exElectronics).2 (by decide)⟩

/-- **C3.** For every input table, `category_performance` is non-increasing
in `category_sales`; `top_products` has at most 100 rows, is non-increasing
in `total_sales`, and the rows kept are those with the largest `total_sales`:
every kept row's `total_sales` is at least every cut row's. -/
theorem claim_C3_sort_and_limit (df : List OrderRow) :
    List.Pairwise (fun a b => b.category_sales ≤ a.category_sales)
      ((process_sales_metrics df).category_performance) ∧
    (process_sales_metrics df).top_products.length ≤ 100 ∧
    List.Pairwise (fun a b => b.total_sales ≤ a.total_sales)
      ((process_sales_metrics df).top_products) ∧
    (∀ x ∈ (process_sales_metrics df).top_products,
      ∀ y ∈ (topProductsFull ((repartition df).flatten)).drop 100,
        y.total_sales ≤ x.total_sales) := by
  have hcat : (category_performance ((repartition df).flatten)).Pairwise
      (fun a b => b.category_sales ≤ a.category_sales) :=
    sortBy_desc_pairwise (fun r : CategoryPerformanceRow => r.category_sales) _
  have htop : (topProductsFull ((repartition df).flatten)).Pairwise
      (fun a b => b.total_sales ≤ a.total_sales) :=
    sortBy_desc_pairwise (fun r : TopProductsRow => r.total_sales) _
  refine ⟨hcat, ?_, ?_, ?_⟩
  · exact List.length_take_le 100 _
  · exact List.Pairwise.sublist (List.take_sublist 100 _) htop
  · intro x hx y hy
    have hsplit := List.take_append_drop 100 (topProductsFull ((repartition df).flatten))
    rw [← hsplit] at htop
    rcases List.pairwise_append.mp htop with ⟨-, -, hcross⟩
    exact hcross x hx y hy

/-- **C3 witness.** The limit bound evaluated on a concrete table. -/
theorem claim_C3_witness :
    (process_sales_metrics exElectronics).top_products.length ≤ 100 ∧
    List.Pairwise (fun a b => b.category_sales ≤ a.category_sales)
      ((process_sales_metrics exElectronics).category_performance) :=
  ⟨(claim_C3_sort_and_limit exElectronics).2.1, (claim_C3_sort_and_limit exElectronics).1⟩

/-- **C7.** Two runs of `save_reports` with distinct well-formed timestamps
write disjoint sets of output paths, and the second run leaves the contents
recorded under every first-run path unchanged: reruns never collide with or
overwrite an earlier run's outputs. -/
theorem claim_C7_reruns_disjoint (c : String) (names : List String) (t1 t2 : String)
    (h1 : wellFormedTs t1) (h2 : wellFormedTs t2) (hne : t1 ≠ t2)
    (v1 v2 : Nat) (fs : FileSys) :
    (∀ p ∈ runPaths c t1 names, p ∉ runPaths c t2 names) ∧
    (∀ p ∈ runPaths c t1 names,
      (runWrite c t2 names v2 (runWrite c t1 names v1 fs)).lookup p =
        (runWrite c t1 names v1 fs).lookup p) := by
  refine ⟨runPaths_disjoint h1 h2 hne, ?_⟩
  intro p hp
  exact runWrite_preserves h1 h2 hne v2 _ p hp

/-- **C7 witness.** Two concrete runs one day apart over the seven report
names: the paths are disjoint and the first run's files are untouched. -/
theorem claim_C7_witness :
    (∀ p ∈ runPaths "data/curated" "20240101_120000"
        ["daily_sales", "category_performance", "regional_analysis", "payment_analysis",
         "top_products", "status_analysis", "shipping_analysis"],
      p ∉ runPaths "data/curated" "20240102_120000"
        ["daily_sales", "category_performance", "regional_analysis", "payment_analysis",
         "top_products", "status_analysis", "shipping_analysis"]) ∧
    (∀ p ∈ runPaths "data/curated" "20240101_120000"
        ["daily_sales", "category_performance", "regional_analysis", "payment_analysis",
         "top_products", "status_analysis", "shipping_analysis"],
      (runWrite "data/curated" "20240102_120000"
        ["daily_sales", "category_performance", "regional_analysis", "payment_analysis",
         "top_products", "status_analysis", "shipping_analysis"] 2
        (runWrite "data/curated" "20240101_120000"
          ["daily_sales", "category_performance", "regional_analysis", "payment_analysis",
           "top_products", "status_analysis", "shipping_analysis"] 1 [])).lookup p =
      (runWrite "data/curated" "20240101_120000"
        ["daily_sales", "category_performance", "regional_analysis", "payment_analysis",
         "top_products", "status_analysis", "shipping_analysis"] 1 []).lookup p) :=
  claim_C7_reruns_disjoint "data/curated"
    ["daily_sales", "category_performance", "regional_analysis", "payment_analysis",
     "top_products", "status_analysis", "shipping_analysis"]
    "20240101_120000" "20240102_120000" (by constructor <;> decide)
    (by constructor <;> decide) (by decide) 1 2 []

/-- **C1.** `process_sales_metrics` returns exactly the seven named reports,
and each report's aggregate values equal the reference grouped computation
over the full unfiltered table: for every group key present in the table the
report contains the directly computed aggregate row for that key, and every
report row equals the directly computed aggregate row for its key (for
`top_products` the kept rows are reference rows and every key's reference
row is in the pre-limit pool).  In particular, for every product category
the `category_performance` row reports `category_sales` = sum of the
matching rows' `final_price`, `category_profit` = sum of their `profit`,
`orders_count` = their number, and `avg_discount` = their mean discount. -/
theorem claim_C1_reports_and_aggregates (df : List OrderRow) :
    ((reportEntries (process_sales_metrics df)).map Prod.fst =
      ["daily_sales", "category_performance", "regional_analysis", "payment_analysis",
       "top_products", "status_analysis", "shipping_analysis"]) ∧
    (∀ k ∈ df.map (fun r => r.product_category),
      ∃ row ∈ (process_sales_metrics df).category_performance,
        row.product_category = k ∧
        row.category_sales =
          ((df.filter (fun r => decide (r.product_category = k))).map
            (fun r => r.final_price)).sum ∧
        row.category_profit =
          ((df.filter (fun r => decide (r.product_category = k))).map
            (fun r => r.profit)).sum ∧
        row.orders_count = (df.filter (fun r => decide (r.product_category = k))).length ∧
        row.avg_discount =
          ((df.filter (fun r => decide (r.product_category = k))).map
            (fun r => r.discount_percentage)).sum /
          ((df.filter (fun r => decide (r.product_category = k))).length : Rat)) ∧
    (∀ k ∈ df.map (fun r => r.order_date),
      dailySalesRow df k ∈ (process_sales_metrics df).daily_sales) ∧
    (∀ row ∈ (process_sales_metrics df).daily_sales, row = dailySalesRow df row.order_date) ∧
    (∀ k ∈ df.map (fun r => r.product_category),
      categoryPerformanceRow df k ∈ (process_sales_metrics df).category_performance) ∧
    (∀ row ∈ (process_sales_metrics df).category_performance,
      row = categoryPerformanceRow df row.product_category) ∧
    (∀ k ∈ df.map (fun r => r.customer_region),
      regionalAnalysisRow df k ∈ (process_sales_metrics df).regional_analysis) ∧
    (∀ row ∈ (process_sales_metrics df).regional_analysis,
      row = regionalAnalysisRow df row.customer_region) ∧
    (∀ k ∈ df.map (fun r => r.payment_method),
      paymentAnalysisRow df k ∈ (process_sales_metrics df).payment_analysis) ∧
    (∀ row ∈ (process_sales_metrics df).payment_analysis,
      row = paymentAnalysisRow df row.payment_method) ∧
    (∀ k ∈ df.map (fun r => (r.product_id, r.product_name)),
      topProductsRow df k ∈ topProductsFull ((repartition df).flatten)) ∧
    (∀ row ∈ (process_sales_metrics df).top_products,
      row = topProductsRow df (row.product_id, row.product_name)) ∧
    (∀ k ∈ df.map (fun r => r.order_status),
      statusAnalysisRow df k ∈ (process_sales_metrics df).status_analysis) ∧
    (∀ row ∈ (process_sales_metrics df).status_analysis,
      row = statusAnalysisRow df row.order_status) ∧
    (∀ k ∈ df.map (fun r => r.shipping_method),
      shippingAnalysisRow df k ∈ (process_sales_metrics df).shipping_analysis) ∧
    (∀ row ∈ (process_sales_metrics df).shipping_analysis,
      row = shippingAnalysisRow df row.shipping_method) := by
  have hdaily := report_reference (fun r => r.order_date) dailySalesRow
    (fun a b => decide (a.order_date ≤ b.order_date)) (fun row => row.order_date)
    (fun _ _ => rfl) (fun _ _ h => dailySalesRow_congr h) df
  have hcat := report_reference (fun r => r.product_category) categoryPerformanceRow
    (fun a b => decide (b.category_sales ≤ a.category_sales)) (fun row => row.product_category)
    (fun _ _ => rfl) (fun _ _ h => categoryPerformanceRow_congr h) df
  have hreg := report_reference (fun r => r.customer_region) regionalAnalysisRow
    (fun a b => decide (b.regional_sales ≤ a.regional_sales)) (fun row => row.customer_region)
    (fun _ _ => rfl) (fun _ _ h => regionalAnalysisRow_congr h) df
  have hpay := report_reference (fun r => r.payment_method) paymentAnalysisRow
    (fun a b => decide (b.total_amount ≤ a.total_amount)) (fun row => row.payment_method)
    (fun _ _ => rfl) (fun _ _ h => paymentAnalysisRow_congr h) df
  have htop := report_reference (fun r => (r.product_id, r.product_name)) topProductsRow
    (fun a b => decide (b.total_sales ≤ a.total_sales))
    (fun row => (row.product_id, row.product_name))
    (fun _ _ => rfl) (fun _ _ h => topProductsRow_congr h) df
  have hstat := report_reference (fun r => r.order_status) statusAnalysisRow
    (fun a b => decide (b.order_count ≤ a.order_count)) (fun row => row.order_status)
    (fun _ _ => rfl) (fun _ _ h => statusAnalysisRow_congr h) df
  have hship := report_reference (fun r => r.shipping_method) shippingAnalysisRow
    (fun a b => decide (b.shipment_count ≤ a.shipment_count)) (fun row => row.shipping_method)
    (fun _ _ => rfl) (fun _ _ h => shippingAnalysisRow_congr h) df
  refine ⟨rfl, ?_, hdaily.1, hdaily.2, hcat.1, hcat.2, hreg.1, hreg.2, hpay.1, hpay.2,
    htop.1, ?_, hstat.1, hstat.2, hship.1, hship.2⟩
  · intro k hk
    exact ⟨categoryPerformanceRow df k, hcat.1 k hk, rfl, rfl, rfl, rfl, rfl⟩
  · intro row hrow
    exact htop.2 row (List.Sublist.mem hrow (List.take_sublist 100 _))

/-- **C1 witness.** The spec's example: three orders in category
`Electronics` with `final_price` 10, 20, 30 and `profit` 1, 2, 3 yield
`category_sales` 60, `category_profit` 6 and `orders_count` 3. -/
theorem claim_C1_witness :
    ∃ row ∈ (process_sales_metrics exElectronics).category_performance,
      row.product_category = "Electronics" ∧ row.category_sales = 60 ∧
      row.category_profit = 6 ∧ row.orders_count = 3 := by
  obtain ⟨row, hmem, hk, hs, hp, hn, -⟩ :=
    (claim_C1_reports_and_aggregates exElectronics).2.1 "Electronics" (by decide)
  refine ⟨row, hmem, hk, ?_, ?_, ?_⟩
  · rw [hs]
    norm_num [exElectronics, mkRow, List.filter]
  · rw [hp]
    norm_num [exElectronics, mkRow, List.filter]
  · rw [hn]
    decide

/-- **C2.** The `daily_sales` report counts customers and orders distinctly,
not by row: for every date in the table its row's `daily_customers` is the
number of distinct `customer_id`s and `daily_orders` the number of distinct
`order_id`s among that date's rows. -/
theorem claim_C2_distinct_counts (df : List OrderRow) (d : String)
    (hd : d ∈ df.map (fun r => r.order_date)) :
    ∃ row ∈ (process_sales_metrics df).daily_sales,
      row.order_date = d ∧
      row.daily_customers =
        ((df.filter (fun r => decide (r.order_date = d))).map
          (fun r => r.customer_id)).dedup.length ∧
      row.daily_orders =
        ((df.filter (fun r => decide (r.order_date = d))).map
          (fun r => r.order_id)).dedup.length := by
  have hdaily := report_reference (fun r => r.order_date) dailySalesRow
    (fun a b => decide (a.order_date ≤ b.order_date)) (fun row => row.order_date)
    (fun _ _ => rfl) (fun _ _ h => dailySalesRow_congr h) df
  exact ⟨dailySalesRow df d, hdaily.1 d hd, rfl, rfl, rfl⟩

/-- **C2 witness.** One customer with five orders (five distinct order ids)
on a single date: `daily_customers` is 1, not 5, and `daily_orders` is 5. -/
theorem claim_C2_witness :
    ∃ row ∈ (process_sales_metrics exFiveOrders).daily_sales,
      row.order_date = "2024-02-02" ∧ row.daily_customers = 1 ∧ row.daily_orders = 5 := by
  obtain ⟨row, hmem, hk, hcust, hord⟩ :=
    claim_C2_distinct_counts exFiveOrders "2024-02-02" (by decide)
  exact ⟨row, hmem, hk, by rw [hcust]; decide, by rw [hord]; decide⟩

/-- **C4 counterexample.** On the empty table the summary's `total_sales`
is `NULL` (`none`), while the `category_performance` report is empty with
column sum `0`, so the claimed equality fails for that input. -/
theorem claim_C4_counterexample :
    ¬ ((summaryRow []).total_sales =
        some ((((process_sales_metrics []).category_performance).map
          (fun r => r.category_sales)).sum)) := by
  decide

/-- **C4 amended.** For every non-empty table, `generate_summary_metrics`'s
`total_sales` (the sum of `final_price` over the whole unaggregated table)
equals the sum of the `category_sales` column over the rows of the
`category_performance` report computed from the same table. -/
theorem claim_C4_summary_equals_report_total (df : List OrderRow) (hne : df ≠ []) :
    (summaryRow df).total_sales =
      some ((((process_sales_metrics df).category_performance).map
        (fun r => r.category_sales)).sum) := by
  have hflat := repartition_flatten_perm df
  have hemp : df.isEmpty = false := by
    cases df with
    | nil => exact absurd rfl hne
    | cons a t => rfl
  have hL : (summaryRow df).total_sales = some (sumOf (fun r => r.final_price) df) := by
    simp [summaryRow, sumOpt, hemp]
  rw [hL, pm_category]
  have h1 : ((category_performance ((repartition df).flatten)).map
      (fun r => r.category_sales)).sum =
      (((groupKeys (fun r => r.product_category) ((repartition df).flatten)).map
        (categoryPerformanceRow ((repartition df).flatten))).map
          (fun r => r.category_sales)).sum :=
    ((sortBy_perm _ _).map _).sum_eq
  have h2 : (((groupKeys (fun r => r.product_category) ((repartition df).flatten)).map
      (categoryPerformanceRow ((repartition df).flatten))).map
        (fun r => r.category_sales)) =
      (groupKeys (fun r => r.product_category) ((repartition df).flatten)).map
        (fun c => sumOf (fun r => r.final_price)
          (groupRows (fun r => r.product_category) c ((repartition df).flatten))) := by
    rw [List.map_map]
    rfl
  have h3 := sum_groupKeys_filter (fun r => r.product_category) (fun r => r.final_price)
    ((repartition df).flatten)
    (groupKeys (fun r => r.product_category) ((repartition df).flatten))
    (groupKeys_nodup _ _) (key_mem_groupKeys _ _)
  rw [h1, h2, h3, sumOf_perm _ hflat]

/-- **C4 witness.** The three-row fixture: 60 on both sides. -/
theorem claim_C4_witness :
    (summaryRow exElectronics).total_sales =
      some ((((process_sales_metrics exElectronics).category_performance).map
        (fun r => r.category_sales)).sum) :=
  claim_C4_summary_equals_report_total exElectronics (by decide)

/-- When every row carries the same order date, all rows land in the same
partition and `repartition` even preserves the row order. -/
theorem repartition_flatten_of_const_date (df : List OrderRow) (d : String)
    (hd : ∀ r ∈ df, r.order_date = d) : (repartition df).flatten = df := by
  have hfilter : ∀ i : Nat, df.filter (fun r => decide (partitionIndex r = i)) =
      if dateHash d % 8 = i then df else [] := by
    intro i
    by_cases hik : dateHash d % 8 = i
    · rw [if_pos hik]
      apply List.filter_eq_self.mpr
      intro r hr
      simp only [decide_eq_true_eq, partitionIndex, hd r hr, hik]
    · rw [if_neg hik]
      apply List.filter_eq_nil_iff.mpr
      intro r hr
      simp only [decide_eq_true_eq, partitionIndex, hd r hr]
      exact hik
  rw [repartition]
  have hr8 : List.range 8 = [0, 1, 2, 3, 4, 5, 6, 7] := rfl
  rw [hr8]
  simp only [List.map_cons, List.map_nil, hfilter]
  have h8 : dateHash d % 8 < 8 := Nat.mod_lt _ (by norm_num)
  set k := dateHash d % 8 with hk
  interval_cases k <;> simp

/-- **C8 counterexample.** Two distributions of the same multiset of rows
(the same table with rows arriving in a different order) yield different
report dictionaries: with two order statuses tied at one order each, the
`status_analysis` rows come out in a different order, so the reports are
not identical and row order is not fixed by the explicit sort step alone. -/
theorem claim_C8_counterexample :
    exTieA.Perm exTieB ∧ process_sales_metrics exTieA ≠ process_sales_metrics exTieB := by
  constructor
  · exact List.Perm.swap _ _ _
  · intro he
    have hobs : (process_sales_metrics exTieA).status_analysis.map
        (fun row => row.order_status) =
        (process_sales_metrics exTieB).status_analysis.map (fun row => row.order_status) := by
      rw [he]
    rw [pm_status, pm_status,
      repartition_flatten_of_const_date exTieA "2024-03-03" (by decide),
      repartition_flatten_of_const_date exTieB "2024-03-03" (by decide)] at hobs
    exact absurd hobs (by decide)

/-- **C8 amended.** For any two distributions/orderings of the same multiset
of input rows, the summary metrics are identical, each of the six
unlimited reports contains exactly the same rows (identical per-group
aggregate values, as a multiset — only the order of rows tied under the
report's sort key can differ), and the pre-limit `top_products` pool is the
same multiset; the 100 rows `top_products` keeps can differ only at a tie
crossing the limit boundary. -/
theorem claim_C8_deterministic_aggregates (df1 df2 : List OrderRow) (h : df1.Perm df2) :
    summaryRow df1 = summaryRow df2 ∧
    (process_sales_metrics df1).daily_sales.Perm ((process_sales_metrics df2).daily_sales) ∧
    (process_sales_metrics df1).category_performance.Perm
      ((process_sales_metrics df2).category_performance) ∧
    (process_sales_metrics df1).regional_analysis.Perm
      ((process_sales_metrics df2).regional_analysis) ∧
    (process_sales_metrics df1).payment_analysis.Perm
      ((process_sales_metrics df2).payment_analysis) ∧
    (process_sales_metrics df1).status_analysis.Perm
      ((process_sales_metrics df2).status_analysis) ∧
    (process_sales_metrics df1).shipping_analysis.Perm
      ((process_sales_metrics df2).shipping_analysis) ∧
    (topProductsFull ((repartition df1).flatten)).Perm
      (topProductsFull ((repartition df2).flatten)) := by
  have hf : ((repartition df1).flatten).Perm ((repartition df2).flatten) :=
    (repartition_flatten_perm df1).trans (h.trans (repartition_flatten_perm df2).symm)
  exact ⟨summaryRow_perm h, daily_sales_perm hf, category_performance_perm hf,
    regional_analysis_perm hf, payment_analysis_perm hf, status_analysis_perm hf,
    shipping_analysis_perm hf, topProductsFull_perm hf⟩

/-- **C8 witness.** The three-row fixture against its reversal: identical
summary metrics and the same `category_performance` rows. -/
theorem claim_C8_witness :
    summaryRow exElectronics = summaryRow exElectronics.reverse ∧
    (process_sales_metrics exElectronics).category_performance.Perm
      ((process_sales_metrics exElectronics.reverse).category_performance) :=
  ⟨(claim_C8_deterministic_aggregates exElectronics exElectronics.reverse
      (List.reverse_perm exElectronics).symm).1,
   (claim_C8_deterministic_aggregates exElectronics exElectronics.reverse
      (List.reverse_perm exElectronics).symm).2.2.1⟩
